import Mathlib

/-!
# Verification of the SQLitemm resource-lifecycle and marshaling layer

A shallow embedding of the SQLitemm C++ wrapper library (header `sqlitemm.hpp`
and implementation `sqlitemm.cpp`) over a model of the SQLite C API.

Conventions of the embedding:

* The native engine is out of scope for the library (the spec treats it as a
  server exposing handle-based primitives), so the outcome of each native call
  is an explicit input (`rc` result codes, out-parameters, column values);
  where a claim needs the engine's documented contract (e.g. a successful
  `ROLLBACK` restores autocommit mode, `sqlite3_close` is blocked exactly by
  unfinalized statements, `sqlite3_backup_step` copies pages), that contract is
  modelled in a `sqlite3_*` definition and the doc comment says so.
* C++ exceptions are modelled with `Except`/`Option SqError`: a method that may
  throw returns either its raised error alongside the object state it leaves
  behind, or an `Except` value.  A `noexcept` method has no error component.
* C machine integers are modelled as `Int`; `result_code & 0xff` on a two's
  complement `int` equals `Int.emod result_code 256`.
-/

namespace Sqlitemm

/-! ## SQLite result codes and fundamental type codes (from `sqlite3.h`) -/

def SQLITE_OK : Int := 0
def SQLITE_BUSY : Int := 5
def SQLITE_LOCKED : Int := 6
def SQLITE_CONSTRAINT : Int := 19
def SQLITE_RANGE : Int := 25
def SQLITE_ROW : Int := 100
def SQLITE_DONE : Int := 101

def SQLITE_INTEGER : Int := 1
def SQLITE_FLOAT : Int := 2
def SQLITE_TEXT : Int := 3
def SQLITE_BLOB : Int := 4
def SQLITE_NULL : Int := 5

/-! ## The error taxonomy

`sqlitemm.hpp` defines `Error` (base, carrying `what_arg` and `error_code`)
with subclasses `BusyError` and `LockedError` (via `BusyOrLockedError`),
`ConstraintError`, `TypeError` and `NullTypeError` (a `TypeError`).  A raised
exception is modelled as a `SqError` value whose `kind` records the most
derived class that was constructed. -/

inductive ErrorKind where
  | busy
  | constraint
  | locked
  | typeError
  | nullTypeError
  | generic
  deriving DecidableEq, Repr

/-- A raised sqlitemm exception: the dynamic class (`kind`), the `what()`
message and the `code()` value of the `Error` object. -/
structure SqError where
  kind : ErrorKind
  what_arg : String
  error_code : Int
  deriving DecidableEq, Repr

/-- Whether an `Except`-valued operation raised an exception. -/
def raised {α : Type} : Except SqError α → Bool
  | .error _ => true
  | .ok _ => false

/-- The dynamic class of the exception raised by an `Except`-valued operation,
if any. -/
def raisedKind {α : Type} : Except SqError α → Option ErrorKind
  | .error e => some e.kind
  | .ok _ => none

/-- `throw_error(const char* message, int result_code)` from `sqlitemm.cpp`:
substitutes a default message for a null pointer, formats
`message << " (" << result_code << ")"`, and switches on
`result_code & 0xff` (the primary result code) to construct the most
specific applicable exception class, which carries the full `result_code`.
The function always throws; it is modelled as returning the thrown error. -/
def throw_error (message : Option String) (result_code : Int) : SqError :=
  let msg := message.getD "SQLite database error"
  let what_arg := msg ++ " (" ++ toString result_code ++ ")"
  let primary := result_code.emod 256
  if primary = SQLITE_BUSY then ⟨.busy, what_arg, result_code⟩
  else if primary = SQLITE_CONSTRAINT then ⟨.constraint, what_arg, result_code⟩
  else if primary = SQLITE_LOCKED then ⟨.locked, what_arg, result_code⟩
  else ⟨.generic, what_arg, result_code⟩

/-- `get_column_type_name` from `sqlitemm.cpp`. -/
def get_column_type_name (column_type : Int) : String :=
  if column_type = SQLITE_NULL then "NULL"
  else if column_type = SQLITE_INTEGER then "INTEGER"
  else if column_type = SQLITE_FLOAT then "FLOAT"
  else if column_type = SQLITE_TEXT then "TEXT"
  else if column_type = SQLITE_BLOB then "BLOB"
  else "UNKNOWN"

/-- `strict_type_check(bool strict_typing, int column_type, int expected_column_type)`
from `sqlitemm.cpp`: when strict typing is on and the dynamic column type does
not match the expected fundamental type, throws `NullTypeError` if the column
is NULL and `TypeError` otherwise (both constructed with error code 0);
otherwise returns without throwing.  Modelled as the optionally raised error. -/
def strict_type_check (strict_typing : Bool) (column_type expected_column_type : Int) :
    Option SqError :=
  if strict_typing && column_type ≠ expected_column_type then
    let head := "expected result field to be of " ++ get_column_type_name expected_column_type
      ++ " type but the value was "
    if column_type = SQLITE_NULL then
      some ⟨.nullTypeError, head ++ "NULL", 0⟩
    else
      some ⟨.typeError, head ++ "of " ++ get_column_type_name column_type ++ " type", 0⟩
  else
    none

/-! ## ResultField and its typed conversions -/

/-- `ResultField`: a non-owning view of one column of the current row.  The
constructor caches the column's dynamic type (`sqlite3_column_type`) in
`column_type`; `strict_typing` is copied from the owning `Result`.  The
statement handle and column index select which engine value the native
`sqlite3_column_*` reads return; those reads appear as explicit inputs of the
conversion functions below. -/
structure ResultField where
  column_type : Int
  strict_typing : Bool
  deriving DecidableEq, Repr

/-- The common body of the sixteen typed conversion operators
`ResultField::operator bool/char/.../std::u16string` in `sqlitemm.cpp`: each
calls `strict_type_check(strict_typing, column_type, E)` for its expected
fundamental type `E` (`SQLITE_INTEGER` for the integer widths and `bool`,
`SQLITE_FLOAT` for `float`/`double`, `SQLITE_TEXT` for the string types) and
then returns the value read by the corresponding `sqlite3_column_*` call,
which is the explicit input `engine_read`. -/
def ResultField.conv (f : ResultField) (expected_column_type : Int) (engine_read : Int) :
    Except SqError Int :=
  match strict_type_check f.strict_typing f.column_type expected_column_type with
  | some e => .error e
  | none => .ok engine_read

/-- `ResultField::as_optional<T>` from the header: default-constructs an empty
`std::optional<T>`; if the cached column type is not `SQLITE_NULL`, emplaces
`*this`, which invokes the conversion operator for `T` (including its
`strict_type_check`); returns the optional.  `expected_column_type` is the
fundamental type expected by `T`'s conversion operator. -/
def ResultField.as_optional (f : ResultField) (expected_column_type : Int) (engine_read : Int) :
    Except SqError (Option Int) :=
  if f.column_type ≠ SQLITE_NULL then
    match ResultField.conv f expected_column_type engine_read with
    | .error e => .error e
    | .ok v => .ok (some v)
  else
    .ok none

/-! ## Result -/

/-- `Result`: a non-owning cursor over one query execution, with the 0-based
field `counter`, the lazily cached `column_count`, and the strict-typing flag
fixed at creation (`Statement::execute_query`). -/
structure Result where
  counter : Int
  column_count : Int
  strict_typing : Bool
  deriving DecidableEq, Repr

/-- `Result::step()` from `sqlitemm.cpp`: calls `sqlite3_step` (outcome
`step_rc`); on `SQLITE_ROW` resets `counter` to 0, caches
`sqlite3_column_count` (input `engine_column_count`) if no count is cached
yet, and returns `true`; on `SQLITE_DONE` returns `false`; otherwise throws
via `throw_error(stmt, rc)`, whose message is the connection's
`sqlite3_errmsg` (input `errmsg`). -/
def Result.step (r : Result) (step_rc : Int) (engine_column_count : Int) (errmsg : String) :
    Result × Except SqError Bool :=
  if step_rc = SQLITE_ROW then
    ({ r with
        counter := 0
        column_count := if r.column_count = 0 then engine_column_count else r.column_count },
      .ok true)
  else if step_rc = SQLITE_DONE then
    (r, .ok false)
  else
    (r, .error (throw_error (some errmsg) step_rc))

/-- `Result::operator>>(std::optional<T>&)` from the header: if
`sqlite3_column_type(stmt, counter)` (input `live_column_type`) is not
`SQLITE_NULL`, extracts `T temp` via `*this >> temp` — which constructs a
`ResultField` at `counter` (caching the same live column type), post-increments
`counter`, and invokes `T`'s conversion operator — and assigns it to the
optional; otherwise empties the optional and increments `counter`.  The result
is the new `Result` state and either the raised error or the new content of
the optional out-parameter. -/
def Result.read_optional (r : Result) (expected_column_type : Int) (live_column_type : Int)
    (engine_read : Int) : Result × Except SqError (Option Int) :=
  if live_column_type ≠ SQLITE_NULL then
    let f : ResultField := { column_type := live_column_type, strict_typing := r.strict_typing }
    let r' := { r with counter := r.counter + 1 }
    match ResultField.conv f expected_column_type engine_read with
    | .error e => (r', .error e)
    | .ok v => (r', .ok (some v))
  else
    ({ r with counter := r.counter + 1 }, .ok none)

/-! ## Transaction -/

/-- `Transaction`: references a connection's handle and holds the `committed`
flag.  The referenced connection's engine-side state is passed explicitly as a
`DbConn`. -/
structure Transaction where
  committed : Bool
  deriving DecidableEq, Repr

/-- Engine-side state of one database connection, as far as the claims need
it: the autocommit flag read by `sqlite3_get_autocommit`, and the current
`sqlite3_errmsg` text. -/
structure DbConn where
  autocommit : Bool
  errmsg : String
  deriving DecidableEq, Repr

/-- Modelled engine semantics of `sqlite3_exec(db, "COMMIT", ...)`: if the
engine reports success (`rc = SQLITE_OK`) the open transaction is committed
and the connection returns to autocommit mode; on failure the connection state
is unchanged.  `rc` is the engine's response. -/
def sqlite3_exec_commit (db : DbConn) (rc : Int) : DbConn :=
  if rc = SQLITE_OK then { db with autocommit := true } else db

/-- Modelled engine semantics of `sqlite3_exec(db, "ROLLBACK", ...)`: if the
engine reports success the open transaction is rolled back and the connection
returns to autocommit mode; on failure the connection state is unchanged. -/
def sqlite3_exec_rollback (db : DbConn) (rc : Int) : DbConn :=
  if rc = SQLITE_OK then { db with autocommit := true } else db

/-- Outcome of `Transaction::commit`: the transaction object and connection
state left behind, the SQL text passed to `sqlite3_exec`, and the raised
error, if any. -/
structure CommitOutcome where
  transaction : Transaction
  db : DbConn
  sql : List String
  raised : Option SqError
  deriving DecidableEq, Repr

/-- `Transaction::commit()` from `sqlitemm.cpp`: executes `COMMIT` via
`sqlite3_exec` (engine response `exec_rc`), then `check_result_ok(db, rc)`
throws `throw_error(sqlite3_errmsg(db), rc)` if the engine did not report
`SQLITE_OK` — leaving `committed` untouched; only after the check does it set
`committed = true`. -/
def Transaction.commit (t : Transaction) (db : DbConn) (exec_rc : Int) : CommitOutcome :=
  let db' := sqlite3_exec_commit db exec_rc
  if exec_rc ≠ SQLITE_OK then
    { transaction := t
      db := db'
      sql := ["COMMIT"]
      raised := some (throw_error (some db'.errmsg) exec_rc) }
  else
    { transaction := { t with committed := true }
      db := db'
      sql := ["COMMIT"]
      raised := none }

/-- Outcome of the `noexcept` rollback/destructor path: the connection state
left behind and the SQL text passed to `sqlite3_exec` (empty when no rollback
was attempted).  There is no error component: these members swallow engine
failures. -/
structure DestructOutcome where
  db : DbConn
  sql : List String
  deriving DecidableEq, Repr

/-- `Transaction::rollback() noexcept` from `sqlitemm.cpp`: if
`sqlite3_get_autocommit(db)` reports that the connection is *not* in
autocommit mode (i.e. a transaction is open), executes `ROLLBACK`, discarding
the result code of `sqlite3_exec` entirely; otherwise does nothing.
`exec_rc` is the engine's response to the `ROLLBACK`, consumed only by the
modelled engine transition. -/
def Transaction.rollback (_t : Transaction) (db : DbConn) (exec_rc : Int) : DestructOutcome :=
  if db.autocommit = false then
    { db := sqlite3_exec_rollback db exec_rc, sql := ["ROLLBACK"] }
  else
    { db := db, sql := [] }

/-- `Transaction::~Transaction()` from the header: `if (!committed) rollback();`. -/
def Transaction.destruct (t : Transaction) (db : DbConn) (exec_rc : Int) : DestructOutcome :=
  if t.committed = false then
    Transaction.rollback t db exec_rc
  else
    { db := db, sql := [] }

/-! ## Statement: reset and clear_bindings -/

/-- The host-side `Statement` object: the positional binding cursor
(`parameter_index`, next 1-based position used by `operator<<`).  The shared
handle cell is modelled separately (`StmtCell`) where a claim needs it. -/
structure Statement where
  parameter_index : Int
  deriving DecidableEq, Repr

/-- Engine-side state of one prepared statement, as far as the claims need
it: the execution position (0 when the statement is reset, i.e. the number of
`sqlite3_step` calls since the last reset), the bound parameter values, and
the connection's current error message. -/
structure StmtState where
  position : Nat
  bindings : List (Int × Int)
  errmsg : String
  deriving DecidableEq, Repr

/-- Modelled engine semantics of `sqlite3_reset(stmt)`: the statement is
always reset back to its initial execution position; the returned code (`rc`,
the engine's response) reports the outcome of the most recent execution. -/
def sqlite3_reset (st : StmtState) (rc : Int) : StmtState × Int :=
  ({ st with position := 0 }, rc)

/-- Modelled engine semantics of `sqlite3_clear_bindings(stmt)`: clears every
bound parameter value and returns a result code (`rc`, the engine's
response). -/
def sqlite3_clear_bindings (st : StmtState) (rc : Int) : StmtState × Int :=
  ({ st with bindings := [] }, rc)

/-- `Statement::clear_bindings()` from `sqlitemm.cpp`: calls
`sqlite3_clear_bindings(*stmt_ptr)` and discards its result code — no check,
no error is ever raised. -/
def Statement.clear_bindings (st : StmtState) (clear_rc : Int) : StmtState × Option SqError :=
  ((sqlite3_clear_bindings st clear_rc).1, none)

/-- Outcome of `Statement::reset`: the statement object and engine-side
statement state left behind, and the raised error, if any. -/
structure ResetOutcome where
  statement : Statement
  stmt_state : StmtState
  raised : Option SqError
  deriving DecidableEq, Repr

/-- `Statement::reset(bool clear_bindings)` from `sqlitemm.cpp`: calls
`sqlite3_reset` (engine response `reset_rc`), then `check_result_ok` throws
via `throw_error(stmt, rc)` if the engine did not report `SQLITE_OK` — in
which case `parameter_index` is never touched; only after the check does it
set `parameter_index = 1` and, if requested, call `clear_bindings()`. -/
def Statement.reset (s : Statement) (st : StmtState) (reset_rc clear_rc : Int)
    (clear : Bool) : ResetOutcome :=
  let (st1, rc) := sqlite3_reset st reset_rc
  if rc ≠ SQLITE_OK then
    { statement := s, stmt_state := st1, raised := some (throw_error (some st1.errmsg) rc) }
  else
    let s' := { s with parameter_index := 1 }
    if clear then
      { statement := s', stmt_state := (Statement.clear_bindings st1 clear_rc).1, raised := none }
    else
      { statement := s', stmt_state := st1, raised := none }

/-! ## Connection: statement tracking and close -/

/-- The shared indirection cell `std::shared_ptr<sqlite3_stmt*>`: holds the
statement handle, or `none` once the handle pointer has been nulled by
`Statement::finalize`. -/
structure StmtCell where
  handle : Option Int
  deriving DecidableEq, Repr

/-- The `Connection` object: whether it currently holds a database handle
(`db != nullptr`), and the tracking list of weak references to statement
cells (`none` models an expired `std::weak_ptr`). -/
structure Connection where
  db_open : Bool
  stmt_ptrs : List (Option StmtCell)
  deriving DecidableEq, Repr

/-- Engine-side state of the connection's prepared statements: the handles
the engine considers not yet finalized. -/
structure Engine where
  open_stmts : List Int
  deriving DecidableEq, Repr

/-- Modelled engine semantics of `sqlite3_finalize(stmt)` as far as the
engine's bookkeeping goes: the handle is no longer an open statement. -/
def sqlite3_finalize (h : Int) (e : Engine) : Engine :=
  { e with open_stmts := e.open_stmts.filter (fun x => x ≠ h) }

/-- Modelled engine semantics of the result code of `sqlite3_close(db)`:
`SQLITE_OK` when no unfinalized prepared statement remains on the connection,
`SQLITE_BUSY` otherwise. -/
def sqlite3_close_rc (e : Engine) : Int :=
  if e.open_stmts = [] then SQLITE_OK else SQLITE_BUSY

/-- Whether the tracking list contains a surviving (non-expired, not yet
finalized) reference to handle `h`. -/
def tracked_live (ptrs : List (Option StmtCell)) (h : Int) : Bool :=
  ptrs.any fun p =>
    match p with
    | some cell => cell.handle = some h
    | none => false

/-- The force-finalization loop of `Connection::close`: for each tracked weak
pointer, `lock()` it (fails on the `none` entries) and, if the locked cell
still holds a handle, `sqlite3_finalize` that handle.  The result codes of
the finalize calls are discarded, as in the source. -/
def force_finalize : List (Option StmtCell) → Engine → Engine
  | [], e => e
  | p :: rest, e =>
    match p with
    | some cell =>
      match cell.handle with
      | some h => force_finalize rest (sqlite3_finalize h e)
      | none => force_finalize rest e
    | none => force_finalize rest e

/-- `Connection::close() noexcept` from `sqlitemm.cpp`: returns immediately
when no handle is held; otherwise calls `sqlite3_close`, and if the engine
refuses (outstanding statements), force-finalizes every surviving tracked
statement handle, clears the tracking list, and calls `sqlite3_close` again;
in every path the handle member ends up null.  The third component records
the result codes of the `sqlite3_close` attempts (a ghost trace; the source
discards them). -/
def Connection.close (c : Connection) (e : Engine) : Connection × Engine × List Int :=
  if c.db_open = false then
    (c, e, [])
  else
    let rc := sqlite3_close_rc e
    if rc ≠ SQLITE_OK then
      let e' := force_finalize c.stmt_ptrs e
      let rc2 := sqlite3_close_rc e'
      ({ db_open := false, stmt_ptrs := [] }, e', [rc, rc2])
    else
      ({ c with db_open := false }, e, [rc])

/-! ## Connection: open -/

/-- Engine-side per-handle state relevant to `open`: whether extended result
codes have been enabled on the handle, and its current error message. -/
structure DbHandle where
  extended_result_codes : Bool
  errmsg : String
  deriving DecidableEq, Repr

/-- `check_open_ok(sqlite3* db, int result_code)` from `sqlitemm.cpp`: when
the open's result code is not `SQLITE_OK`, copies the handle's error message,
closes the partially-opened handle, and throws via `throw_error`; with a null
handle it throws the allocation-failure message instead.  Modelled as the
optionally raised error. -/
def check_open_ok (db : Option DbHandle) (result_code : Int) : Option SqError :=
  if result_code ≠ SQLITE_OK then
    match db with
    | some h => some (throw_error (some h.errmsg) result_code)
    | none =>
      some (throw_error
        (some "unable to allocate memory for SQLite database connection handle") result_code)
  else
    none

/-- Modelled engine semantics of `sqlite3_extended_result_codes(db, 1)`:
enables extended result codes on the handle. -/
def sqlite3_extended_result_codes_on (h : DbHandle) : DbHandle :=
  { h with extended_result_codes := true }

/-- `Connection::open(const std::string&)` from `sqlitemm.cpp`: calls
`sqlite3_open` (engine response: result code `open_rc` and out-parameter
`db`), raises via `check_open_ok` if the code is not `SQLITE_OK`, then
enables extended result codes on the handle.  Returns the new value of the
`db` member.  The `u16string` and `(filename, flags, vfs)` overloads differ
only in the native open call (`sqlite3_open16` / `sqlite3_open_v2`) and reach
`check_open_ok` unconditionally, with the same observable behaviour, so the
one model covers all three. -/
def Connection.open (open_rc : Int) (db : Option DbHandle) :
    Except SqError (Option DbHandle) :=
  if open_rc ≠ SQLITE_OK then
    match check_open_ok db open_rc with
    | some err => .error err
    | none => .ok (db.map sqlite3_extended_result_codes_on)
  else
    .ok (db.map sqlite3_extended_result_codes_on)

/-! ## Backup -/

/-- The `Backup` object: its exclusively owned backup handle (`none` models a
null `sqlite3_backup*`). -/
structure Backup where
  backup : Option Int
  deriving DecidableEq, Repr

/-- `Backup::Backup(...)` from `sqlitemm.cpp`: its entire body is
`backup = sqlite3_backup_init(...)`; the returned handle — null on failure —
is stored without any check, and no error is ever raised.
`backup_init_result` is the engine's response. -/
def Backup.init (backup_init_result : Option Int) : Backup × Option SqError :=
  ({ backup := backup_init_result }, none)

/-- Engine-side state of one backup operation: pages remaining to be copied
and the total page count of the source (as reported by
`sqlite3_backup_remaining` / `sqlite3_backup_pagecount`). -/
structure BackupState where
  remaining : Nat
  pagecount : Nat
  deriving DecidableEq, Repr

/-- Modelled engine semantics of `sqlite3_backup_step(backup, num_pages)`:
when the engine does not report a failure (`fail = none`), it copies
`num_pages` pages — all remaining pages when `num_pages` is negative — and
returns `SQLITE_DONE` once no page remains, `SQLITE_OK` otherwise; a failure
injection `fail = some rc` leaves the state unchanged and returns `rc`. -/
def sqlite3_backup_step (b : BackupState) (num_pages : Int) (fail : Option Int) :
    BackupState × Int :=
  match fail with
  | some rc => (b, rc)
  | none =>
    let copied := if num_pages < 0 then b.remaining else min b.remaining num_pages.toNat
    let b' := { b with remaining := b.remaining - copied }
    (b', if b'.remaining = 0 then SQLITE_DONE else SQLITE_OK)

/-- `Backup::step(int num_pages)` from `sqlitemm.cpp`: calls
`sqlite3_backup_step` and switches on the result: `SQLITE_OK` yields `true`,
`SQLITE_DONE` yields `false`, anything else throws
`throw_error("SQLite database backup error", rc)`. -/
def Backup.step (b : BackupState) (num_pages : Int) (fail : Option Int) :
    BackupState × Except SqError Bool :=
  let (b', rc) := sqlite3_backup_step b num_pages fail
  if rc = SQLITE_OK then (b', .ok true)
  else if rc = SQLITE_DONE then (b', .ok false)
  else (b', .error (throw_error (some "SQLite database backup error") rc))

/-- `Backup::pages_remaining()` from `sqlitemm.cpp`: returns
`sqlite3_backup_remaining(backup)`. -/
def Backup.pages_remaining (b : BackupState) : Nat :=
  b.remaining

/-! ## ResultIterator -/

/-- `ResultIterator<T>`: holds a pointer to the `Result` it iterates
(modelled by the identity `Nat` of the result object; `none` is the empty /
end iterator) and the retrieval function (modelled by an identity as well;
the default constructor leaves it null).  The element type `T` plays no role
in construction, stepping or equality. -/
structure ResultIterator where
  result : Option Nat
  retrieval_function : Option Nat
  deriving DecidableEq, Repr

/-- The default-constructed (empty / end) iterator. -/
def ResultIterator.empty : ResultIterator :=
  { result := none, retrieval_function := none }

/-- The rows the engine will still produce for a `Result`: `Result::step`
returns `true` exactly `rows` more times before returning `false`.  This
specialises `Result.step` to the non-error path, which is what the iterator
claims quantify over. -/
structure ResultStream where
  rows : Nat
  deriving DecidableEq, Repr

/-- `result->step()` on the stream view: consumes one row when available. -/
def ResultStream.step (s : ResultStream) : ResultStream × Bool :=
  if s.rows = 0 then (s, false) else ({ rows := s.rows - 1 }, true)

/-- The converting constructor `ResultIterator(Result&, retrieval_func)` from
the header: stores the result pointer and retrieval function, then
immediately calls `result->step()` and becomes the empty iterator if no row
was produced.  `rid`/`fid` are the identities of the result object and the
retrieval function. -/
def ResultIterator.make (rid : Nat) (fid : Nat) (s : ResultStream) :
    ResultIterator × ResultStream :=
  let (s', row) := ResultStream.step s
  (if row then { result := some rid, retrieval_function := some fid }
   else { result := none, retrieval_function := some fid }, s')

/-- `ResultIterator::operator++()` from the header: calls `result->step()`
and becomes the empty iterator if no row was produced.  (Calling it on the
empty iterator dereferences a null pointer in the source; the model is only
used with non-empty iterators.) -/
def ResultIterator.inc (it : ResultIterator) (s : ResultStream) :
    ResultIterator × ResultStream :=
  let (s', row) := ResultStream.step s
  (if row then it else { it with result := none }, s')

/-- `ResultIterator::operator==` from the header: compares the stored
`Result*` pointers. -/
def ResultIterator.eq (a b : ResultIterator) : Bool :=
  a.result == b.result

/-! ## Claim theorems -/

/-- C1: for every `Transaction`, when its destructor runs with the committed
flag false it performs a rollback, issuing `ROLLBACK` only if the connection
is not already in autocommit mode, and any rollback failure is swallowed (the
destructor path has no error component and is defined for every engine
response `exec_rc`); when the committed flag is true the destructor issues no
rollback.  Hence a destroyed, uncommitted transaction is not left active:
whenever the engine accepts the rollback (or there was nothing to roll back),
the connection ends in autocommit mode. -/
theorem c1_transaction_destructor (t : Transaction) (db : DbConn) (exec_rc : Int) :
    (t.committed = false → db.autocommit = false →
      Transaction.destruct t db exec_rc =
        { db := sqlite3_exec_rollback db exec_rc, sql := ["ROLLBACK"] }) ∧
    (t.committed = false → db.autocommit = true →
      Transaction.destruct t db exec_rc = { db := db, sql := [] }) ∧
    (t.committed = true →
      Transaction.destruct t db exec_rc = { db := db, sql := [] }) ∧
    (t.committed = false → (exec_rc = SQLITE_OK ∨ db.autocommit = true) →
      (Transaction.destruct t db exec_rc).db.autocommit = true) := by
  refine ⟨?_, ?_, ?_, ?_⟩
  · intro hc ha
    simp [Transaction.destruct, Transaction.rollback, hc, ha]
  · intro hc ha
    simp [Transaction.destruct, Transaction.rollback, hc, ha]
  · intro hc
    simp [Transaction.destruct, hc]
  · intro hc hok
    rcases hok with hok | ha
    · by_cases ha : db.autocommit
      · simp [Transaction.destruct, Transaction.rollback, hc, ha]
      · simp only [Bool.not_eq_true] at ha
        simp [Transaction.destruct, Transaction.rollback, sqlite3_exec_rollback, hc, ha, hok]
    · simp [Transaction.destruct, Transaction.rollback, hc, ha]

/-- Witness for C1 at a concrete uncommitted transaction on a connection with
an open transaction: the destructor issues exactly one `ROLLBACK` and, the
engine accepting it, leaves the connection in autocommit mode. -/
theorem c1_witness :
    Transaction.destruct { committed := false } { autocommit := false, errmsg := "" } SQLITE_OK =
      { db := { autocommit := true, errmsg := "" }, sql := ["ROLLBACK"] } := by
  have h := (c1_transaction_destructor { committed := false }
    { autocommit := false, errmsg := "" } SQLITE_OK).1 rfl rfl
  simpa [sqlite3_exec_rollback] using h

/-- C3: `Transaction::commit` issues `COMMIT`; if the engine reports a
failure, commit raises an error and leaves the transaction object (in
particular its committed flag) unchanged; only on success does it set the
committed flag to true. -/
theorem c3_transaction_commit (t : Transaction) (db : DbConn) (exec_rc : Int) :
    ((Transaction.commit t db exec_rc).sql = ["COMMIT"]) ∧
    (exec_rc ≠ SQLITE_OK →
      (Transaction.commit t db exec_rc).raised.isSome = true ∧
      (Transaction.commit t db exec_rc).transaction = t) ∧
    (exec_rc = SQLITE_OK →
      (Transaction.commit t db exec_rc).raised = none ∧
      (Transaction.commit t db exec_rc).transaction.committed = true) := by
  by_cases hrc : exec_rc = SQLITE_OK
  · refine ⟨?_, ?_, ?_⟩ <;> simp [Transaction.commit, hrc]
  · refine ⟨?_, ?_, ?_⟩ <;> simp [Transaction.commit, hrc]

/-- Witness for C3 at a concrete failing and a concrete succeeding engine
response: a `SQLITE_BUSY` commit raises and leaves the flag false, a
successful commit sets it. -/
theorem c3_witness :
    ((Transaction.commit { committed := false } { autocommit := false, errmsg := "e" }
        SQLITE_BUSY).raised.isSome = true ∧
      (Transaction.commit { committed := false } { autocommit := false, errmsg := "e" }
        SQLITE_BUSY).transaction = { committed := false }) ∧
    (Transaction.commit { committed := false } { autocommit := false, errmsg := "e" }
        SQLITE_OK).transaction.committed = true :=
  ⟨(c3_transaction_commit { committed := false } { autocommit := false, errmsg := "e" }
      SQLITE_BUSY).2.1 (by decide),
    ((c3_transaction_commit { committed := false } { autocommit := false, errmsg := "e" }
      SQLITE_OK).2.2 rfl).2⟩

/-- C5: `Result::step` returns true and resets the 0-based field cursor to 0
whenever the engine produces a row, caching the engine's column count when no
count has been cached yet (as on the first successful step) and keeping the
cached count otherwise; it returns false, changing nothing, when the engine
reports completion; and for any other engine response it raises an error. -/
theorem c5_result_step (r : Result) (rc ecc : Int) (m : String) :
    (rc = SQLITE_ROW →
      Result.step r rc ecc m =
        ({ r with
            counter := 0
            column_count := if r.column_count = 0 then ecc else r.column_count },
          .ok true)) ∧
    (rc = SQLITE_DONE → Result.step r rc ecc m = (r, .ok false)) ∧
    (rc ≠ SQLITE_ROW → rc ≠ SQLITE_DONE →
      raised (Result.step r rc ecc m).2 = true ∧ (Result.step r rc ecc m).1 = r) := by
  refine ⟨?_, ?_, ?_⟩
  · intro h
    simp [Result.step, h]
  · intro h
    rw [Result.step]
    simp [h, SQLITE_ROW, SQLITE_DONE]
  · intro h1 h2
    rw [Result.step]
    simp [h1, h2, raised]

/-- Witness for C5: a fresh result (no cached count) stepping onto a row with
a 3-column engine count caches 3 and resets the cursor; completion returns
false; an engine error response raises. -/
theorem c5_witness :
    (Result.step { counter := 2, column_count := 0, strict_typing := false } SQLITE_ROW 3 "m" =
      ({ counter := 0, column_count := 3, strict_typing := false }, .ok true)) ∧
    (Result.step { counter := 2, column_count := 3, strict_typing := false } SQLITE_DONE 3 "m" =
      ({ counter := 2, column_count := 3, strict_typing := false }, .ok false)) ∧
    raised (Result.step { counter := 2, column_count := 3, strict_typing := false }
      SQLITE_BUSY 3 "m").2 = true :=
  ⟨by
      have h := (c5_result_step { counter := 2, column_count := 0, strict_typing := false }
        SQLITE_ROW 3 "m").1 rfl
      simpa using h,
    (c5_result_step { counter := 2, column_count := 3, strict_typing := false }
      SQLITE_DONE 3 "m").2.1 rfl,
    ((c5_result_step { counter := 2, column_count := 3, strict_typing := false }
      SQLITE_BUSY 3 "m").2.2 (by decide) (by decide)).1⟩

/-- C4 (amended): with strict typing enabled, a conversion whose target type
does not match the field's cached dynamic column type raises a null-type
error when the column is NULL and a type error for any other mismatch; a
matching conversion succeeds.  When the target type is `optional<T>`, the
null-type error is suppressed — a NULL column yields an empty optional — but
a non-NULL mismatch still raises a type error (both for
`ResultField::as_optional` and for streaming `operator>>(std::optional<T>&)`).
With strict typing disabled, no such error is ever raised. -/
theorem c4_strict_typing (f : ResultField) (expected er : Int) (r : Result) (live : Int) :
    (f.strict_typing = true → f.column_type ≠ expected →
      raisedKind (ResultField.conv f expected er) =
        some (if f.column_type = SQLITE_NULL then ErrorKind.nullTypeError
          else ErrorKind.typeError)) ∧
    (f.column_type = expected → ResultField.conv f expected er = .ok er) ∧
    (f.strict_typing = false →
      ResultField.conv f expected er = .ok er ∧
      raised (ResultField.as_optional f expected er) = false) ∧
    (r.strict_typing = false → raised (Result.read_optional r expected live er).2 = false) ∧
    (f.column_type = SQLITE_NULL → ResultField.as_optional f expected er = .ok none) ∧
    (live = SQLITE_NULL →
      Result.read_optional r expected live er =
        ({ r with counter := r.counter + 1 }, .ok none)) ∧
    (f.strict_typing = true → f.column_type ≠ SQLITE_NULL → f.column_type ≠ expected →
      raisedKind (ResultField.as_optional f expected er) = some ErrorKind.typeError) ∧
    (r.strict_typing = true → live ≠ SQLITE_NULL → live ≠ expected →
      raisedKind (Result.read_optional r expected live er).2 = some ErrorKind.typeError) := by
  refine ⟨?_, ?_, ?_, ?_, ?_, ?_, ?_, ?_⟩
  · intro hs hm
    by_cases hn : f.column_type = SQLITE_NULL
    · rw [hn] at hm
      simp [ResultField.conv, strict_type_check, raisedKind, hs, hm, hn]
    · simp [ResultField.conv, strict_type_check, raisedKind, hs, hm, hn]
  · intro hm
    simp [ResultField.conv, strict_type_check, hm]
  · intro hs
    refine ⟨by simp [ResultField.conv, strict_type_check, hs], ?_⟩
    by_cases hn : f.column_type = SQLITE_NULL <;>
      simp [ResultField.as_optional, ResultField.conv, strict_type_check, raised, hs, hn]
  · intro hs
    by_cases hn : live = SQLITE_NULL <;>
      simp [Result.read_optional, ResultField.conv, strict_type_check, raised, hs, hn]
  · intro hn
    simp [ResultField.as_optional, hn]
  · intro hn
    simp [Result.read_optional, hn]
  · intro hs hn hm
    simp [ResultField.as_optional, ResultField.conv, strict_type_check, raisedKind, hs, hn, hm]
  · intro hs hn hm
    simp [Result.read_optional, ResultField.conv, strict_type_check, raisedKind, hs, hn, hm]

/-- Counterexample to C4 as stated: the claim says both strict-typing errors
are suppressed when the target type is `optional<T>`, but converting a
non-NULL `TEXT` column to `optional<int>` under strict typing raises a
`TypeError` — only the null-type error is suppressed. -/
theorem c4_counterexample :
    raisedKind (ResultField.as_optional
        { column_type := SQLITE_TEXT, strict_typing := true } SQLITE_INTEGER 0) =
      some ErrorKind.typeError ∧
    raisedKind (Result.read_optional
        { counter := 0, column_count := 1, strict_typing := true }
        SQLITE_INTEGER SQLITE_TEXT 0).2 =
      some ErrorKind.typeError := by
  constructor <;> rfl

/-- Witness for C4 (amended) at concrete fields: NULL into plain `int` under
strict typing raises the null-type error, `TEXT` into plain `int` raises the
type error, NULL into `optional<int>` yields the empty optional, and without
strict typing the mismatched conversion succeeds. -/
theorem c4_witness :
    (raisedKind (ResultField.conv
        { column_type := SQLITE_NULL, strict_typing := true } SQLITE_INTEGER 0) =
      some ErrorKind.nullTypeError) ∧
    (raisedKind (ResultField.conv
        { column_type := SQLITE_TEXT, strict_typing := true } SQLITE_INTEGER 0) =
      some ErrorKind.typeError) ∧
    (ResultField.as_optional { column_type := SQLITE_NULL, strict_typing := true }
        SQLITE_INTEGER 0 = .ok none) ∧
    (ResultField.conv { column_type := SQLITE_TEXT, strict_typing := false }
        SQLITE_INTEGER 7 = .ok 7) :=
  ⟨by
      have h := (c4_strict_typing { column_type := SQLITE_NULL, strict_typing := true }
        SQLITE_INTEGER 0 { counter := 0, column_count := 1, strict_typing := true }
        SQLITE_NULL).1 rfl (by decide)
      simpa using h,
    by
      have h := (c4_strict_typing { column_type := SQLITE_TEXT, strict_typing := true }
        SQLITE_INTEGER 0 { counter := 0, column_count := 1, strict_typing := true }
        SQLITE_NULL).1 rfl (by decide)
      simpa [SQLITE_TEXT, SQLITE_NULL] using h,
    (c4_strict_typing { column_type := SQLITE_NULL, strict_typing := true }
        SQLITE_INTEGER 0 { counter := 0, column_count := 1, strict_typing := true }
        SQLITE_NULL).2.2.2.2.1 rfl,
    ((c4_strict_typing { column_type := SQLITE_TEXT, strict_typing := false }
        SQLITE_INTEGER 7 { counter := 0, column_count := 1, strict_typing := false }
        SQLITE_NULL).2.2.1 rfl).1⟩

/-- C8 (amended): `Statement::reset(clear_bindings)` resets the execution
position; when the engine reports success it resets the positional binding
cursor to 1 and clears the bound parameter values exactly when
`clear_bindings` is true; when the engine reports a failure for the reset
itself, it raises an error and leaves the statement object — in particular
the positional cursor — unchanged. -/
theorem c8_statement_reset (s : Statement) (st : StmtState) (reset_rc clear_rc : Int)
    (clear : Bool) :
    ((Statement.reset s st reset_rc clear_rc clear).stmt_state.position = 0) ∧
    (reset_rc = SQLITE_OK →
      (Statement.reset s st reset_rc clear_rc clear).statement.parameter_index = 1 ∧
      (Statement.reset s st reset_rc clear_rc clear).raised = none ∧
      (Statement.reset s st reset_rc clear_rc clear).stmt_state.bindings =
        (if clear then [] else st.bindings)) ∧
    (reset_rc ≠ SQLITE_OK →
      (Statement.reset s st reset_rc clear_rc clear).raised.isSome = true ∧
      (Statement.reset s st reset_rc clear_rc clear).statement = s) := by
  by_cases hrc : reset_rc = SQLITE_OK
  · by_cases hcl : clear <;>
      refine ⟨?_, ?_, ?_⟩ <;>
      simp [Statement.reset, sqlite3_reset, Statement.clear_bindings,
        sqlite3_clear_bindings, hrc, hcl]
  · refine ⟨?_, ?_, ?_⟩ <;> simp [Statement.reset, sqlite3_reset, hrc]

/-- Counterexample to C8 as stated: the claim says the cursor is reset to 1
after every call to reset, including one in which the engine reports a
failure; but when `sqlite3_reset` reports `SQLITE_BUSY`, `check_result_ok`
throws before `parameter_index = 1` executes, so the cursor keeps its old
value 5. -/
theorem c8_counterexample :
    (Statement.reset { parameter_index := 5 }
        { position := 3, bindings := [(1, 42)], errmsg := "e" }
        SQLITE_BUSY SQLITE_OK false).raised.isSome = true ∧
    (Statement.reset { parameter_index := 5 }
        { position := 3, bindings := [(1, 42)], errmsg := "e" }
        SQLITE_BUSY SQLITE_OK false).statement.parameter_index = 5 := by
  constructor <;> rfl

/-- Witness for C8 (amended): a successful reset with `clear_bindings = true`
resets the position, the cursor and the bindings; a failed reset raises and
keeps the cursor. -/
theorem c8_witness :
    ((Statement.reset { parameter_index := 5 }
        { position := 3, bindings := [(1, 42)], errmsg := "e" }
        SQLITE_OK SQLITE_OK true).statement.parameter_index = 1) ∧
    ((Statement.reset { parameter_index := 5 }
        { position := 3, bindings := [(1, 42)], errmsg := "e" }
        SQLITE_OK SQLITE_OK true).stmt_state.bindings = []) ∧
    ((Statement.reset { parameter_index := 5 }
        { position := 3, bindings := [(1, 42)], errmsg := "e" }
        SQLITE_BUSY SQLITE_OK true).statement = { parameter_index := 5 }) :=
  ⟨((c8_statement_reset { parameter_index := 5 }
      { position := 3, bindings := [(1, 42)], errmsg := "e" }
      SQLITE_OK SQLITE_OK true).2.1 rfl).1,
    by
      have h := ((c8_statement_reset { parameter_index := 5 }
        { position := 3, bindings := [(1, 42)], errmsg := "e" }
        SQLITE_OK SQLITE_OK true).2.1 rfl).2.2
      simpa using h,
    ((c8_statement_reset { parameter_index := 5 }
      { position := 3, bindings := [(1, 42)], errmsg := "e" }
      SQLITE_BUSY SQLITE_OK true).2.2 (by decide)).2⟩

/-- C9: `Backup::step(num_pages)` copies up to `num_pages` pages (a negative
count meaning all remaining pages), returns true exactly while pages remain
to be copied after the step, returns false exactly once the copy is complete
(no page remaining), and raises an error for any other engine response. -/
theorem c9_backup_step (b : BackupState) (n : Int) :
    ((Backup.step b n none).1.remaining =
      b.remaining - (if n < 0 then b.remaining else min b.remaining n.toNat)) ∧
    ((Backup.step b n none).2 = .ok true ↔ 0 < Backup.pages_remaining (Backup.step b n none).1) ∧
    ((Backup.step b n none).2 = .ok false ↔ Backup.pages_remaining (Backup.step b n none).1 = 0) ∧
    (∀ rc, rc ≠ SQLITE_OK → rc ≠ SQLITE_DONE →
      raised (Backup.step b n (some rc)).2 = true ∧ (Backup.step b n (some rc)).1 = b) := by
  by_cases hz : b.remaining - (if n < 0 then b.remaining else min b.remaining n.toNat) = 0
  · refine ⟨?_, ?_, ?_, ?_⟩
    · simp [Backup.step, sqlite3_backup_step, hz, SQLITE_DONE, SQLITE_OK]
    · simp [Backup.step, sqlite3_backup_step, Backup.pages_remaining, hz, SQLITE_DONE, SQLITE_OK]
    · simp [Backup.step, sqlite3_backup_step, Backup.pages_remaining, hz, SQLITE_DONE, SQLITE_OK]
    · intro rc h1 h2
      simp [Backup.step, sqlite3_backup_step, raised, h1, h2]
  · refine ⟨?_, ?_, ?_, ?_⟩
    · simp [Backup.step, sqlite3_backup_step, hz]
    · simp [Backup.step, sqlite3_backup_step, Backup.pages_remaining, hz, Nat.pos_of_ne_zero hz]
    · simp [Backup.step, sqlite3_backup_step, Backup.pages_remaining, hz]
    · intro rc h1 h2
      simp [Backup.step, sqlite3_backup_step, raised, h1, h2]

/-- Witness for C9: from 3 remaining pages, a 1-page step copies one page and
returns true; a negative step copies the remaining pages and returns false;
a `SQLITE_BUSY` response raises. -/
theorem c9_witness :
    ((Backup.step { remaining := 3, pagecount := 3 } 1 none).1.remaining = 2) ∧
    ((Backup.step { remaining := 2, pagecount := 3 } (-1) none).2 = .ok false) ∧
    raised (Backup.step { remaining := 2, pagecount := 3 } 1 (some SQLITE_BUSY)).2 = true :=
  ⟨by
      have h := (c9_backup_step { remaining := 3, pagecount := 3 } 1).1
      simpa using h,
    (c9_backup_step { remaining := 2, pagecount := 3 } (-1)).2.2.1.mpr (by rfl),
    ((c9_backup_step { remaining := 2, pagecount := 3 } 1).2.2.2 SQLITE_BUSY
      (by decide) (by decide)).1⟩

/-- After the force-finalization loop, no statement handle that was tracked
live survives; so if every open statement of the engine was tracked live (the
invariant `Connection::prepare` maintains by registering every handle it
creates), no open statement remains at all. -/
lemma force_finalize_clears (ptrs : List (Option StmtCell)) (e : Engine)
    (hinv : ∀ h ∈ e.open_stmts, tracked_live ptrs h = true) :
    (force_finalize ptrs e).open_stmts = [] := by
  induction ptrs generalizing e with
  | nil =>
    rw [force_finalize]
    refine List.eq_nil_iff_forall_not_mem.mpr fun h hmem => ?_
    have := hinv h hmem
    simp [tracked_live] at this
  | cons p rest ih =>
    cases p with
    | none =>
      rw [force_finalize]
      refine ih e fun h hmem => ?_
      have := hinv h hmem
      simpa [tracked_live] using this
    | some cell =>
      cases hc : cell.handle with
      | none =>
        rw [force_finalize, hc]
        refine ih e fun h hmem => ?_
        have := hinv h hmem
        simpa [tracked_live, hc] using this
      | some h0 =>
        rw [force_finalize, hc]
        refine ih (sqlite3_finalize h0 e) fun h hmem => ?_
        rw [sqlite3_finalize] at hmem
        simp only [List.mem_filter, decide_eq_true_eq] at hmem
        have := hinv h hmem.1
        simp only [tracked_live, List.any_cons, Bool.or_eq_true, decide_eq_true_eq, hc,
          Option.some.injEq] at this
        rcases this with h0h | hrest
        · exact absurd h0h.symm hmem.2
        · simpa [tracked_live] using hrest

/-- C2: `Connection::close` is idempotent — a call on a connection holding no
handle does nothing, and after any close the connection holds no handle, so a
second call does nothing — and when the engine reports the close blocked by
outstanding statements, close force-finalizes every surviving tracked
statement handle and retries the close, which (under the tracking invariant
that every open statement handle of the engine is tracked live) always
succeeds: the retried `sqlite3_close` returns `SQLITE_OK` and no open
statement remains. -/
theorem c2_connection_close (c : Connection) (e : Engine)
    (hinv : ∀ h ∈ e.open_stmts, tracked_live c.stmt_ptrs h = true) :
    (c.db_open = false → Connection.close c e = (c, e, [])) ∧
    ((Connection.close c e).1.db_open = false) ∧
    (Connection.close (Connection.close c e).1 (Connection.close c e).2.1 =
      ((Connection.close c e).1, (Connection.close c e).2.1, [])) ∧
    (c.db_open = true →
      (Connection.close c e).2.1.open_stmts = [] ∧
      ((Connection.close c e).2.2 = [SQLITE_OK] ∨
        (Connection.close c e).2.2 = [SQLITE_BUSY, SQLITE_OK])) := by
  have hB : (Connection.close c e).1.db_open = false := by
    by_cases hdb : c.db_open = false
    · simp [Connection.close, hdb]
    · by_cases hos : e.open_stmts = [] <;>
        simp [Connection.close, sqlite3_close_rc, hdb, hos, SQLITE_OK, SQLITE_BUSY]
  refine ⟨?_, hB, ?_, ?_⟩
  · intro hdb
    simp [Connection.close, hdb]
  · have hnoop : ∀ (c' : Connection) (e' : Engine), c'.db_open = false →
        Connection.close c' e' = (c', e', []) := by
      intro c' e' h
      simp [Connection.close, h]
    exact hnoop _ _ hB
  · intro hdb
    by_cases hos : e.open_stmts = []
    · constructor
      · simp [Connection.close, sqlite3_close_rc, hdb, hos, SQLITE_OK]
      · left
        simp [Connection.close, sqlite3_close_rc, hdb, hos, SQLITE_OK]
    · have hff := force_finalize_clears c.stmt_ptrs e hinv
      constructor
      · simp [Connection.close, sqlite3_close_rc, hdb, hos, hff, SQLITE_OK, SQLITE_BUSY]
      · right
        simp [Connection.close, sqlite3_close_rc, hdb, hos, hff, SQLITE_OK, SQLITE_BUSY]

/-- Witness for C2 at a concrete connection tracking one live statement
handle that the engine still holds open: close ends with no handle, no open
statement, and a trace showing the blocked first close and the successful
retry. -/
theorem c2_witness :
    (∀ h ∈ ({ open_stmts := [7] } : Engine).open_stmts,
      tracked_live [some { handle := some 7 }, none] h = true) ∧
    ((Connection.close { db_open := true, stmt_ptrs := [some { handle := some 7 }, none] }
        { open_stmts := [7] }).1.db_open = false ∧
      ((Connection.close { db_open := true, stmt_ptrs := [some { handle := some 7 }, none] }
        { open_stmts := [7] }).2.2 = [SQLITE_OK] ∨
        (Connection.close { db_open := true, stmt_ptrs := [some { handle := some 7 }, none] }
          { open_stmts := [7] }).2.2 = [SQLITE_BUSY, SQLITE_OK])) :=
  ⟨by decide,
    (c2_connection_close { db_open := true, stmt_ptrs := [some { handle := some 7 }, none] }
      { open_stmts := [7] } (by decide)).2.1,
    ((c2_connection_close { db_open := true, stmt_ptrs := [some { handle := some 7 }, none] }
      { open_stmts := [7] } (by decide)).2.2.2 rfl).2⟩

/-- C6: constructing a non-empty `ResultIterator` immediately advances the
underlying `Result` by one row and yields the empty (end) iterator if no row
is produced, so an iterator over an empty result set immediately equals the
end sentinel; each increment of a non-empty iterator consumes one row or
becomes the empty iterator when no row is produced; and two iterators compare
equal if and only if both are empty or both reference the same `Result`. -/
theorem c6_result_iterator (rid fid : Nat) (s : ResultStream) (a b : ResultIterator) :
    (s.rows = 0 →
      (ResultIterator.make rid fid s).1.result = none ∧
      ResultIterator.eq (ResultIterator.make rid fid s).1 ResultIterator.empty = true) ∧
    (0 < s.rows →
      (ResultIterator.make rid fid s).1.result = some rid ∧
      (ResultIterator.make rid fid s).2.rows = s.rows - 1) ∧
    (a.result.isSome = true → 0 < s.rows →
      (ResultIterator.inc a s).1 = a ∧ (ResultIterator.inc a s).2.rows = s.rows - 1) ∧
    (a.result.isSome = true → s.rows = 0 → (ResultIterator.inc a s).1.result = none) ∧
    (ResultIterator.eq a b = true ↔
      (a.result = none ∧ b.result = none) ∨
        ∃ rr, a.result = some rr ∧ b.result = some rr) := by
  refine ⟨?_, ?_, ?_, ?_, ?_⟩
  · intro hz
    constructor <;>
      simp [ResultIterator.make, ResultStream.step, ResultIterator.eq, ResultIterator.empty, hz]
  · intro hz
    have hz' : s.rows ≠ 0 := Nat.pos_iff_ne_zero.mp hz
    constructor <;> simp [ResultIterator.make, ResultStream.step, hz']
  · intro _ hz
    have hz' : s.rows ≠ 0 := Nat.pos_iff_ne_zero.mp hz
    constructor <;> simp [ResultIterator.inc, ResultStream.step, hz']
  · intro _ hz
    simp [ResultIterator.inc, ResultStream.step, hz]
  · rw [ResultIterator.eq, beq_iff_eq]
    cases ha : a.result with
    | none => cases hb : b.result with
      | none => simp
      | some y => simp
    | some x => cases hb : b.result with
      | none => simp
      | some y => simp [eq_comm]

/-- Witness for C6: over an empty result set the constructed iterator equals
the end sentinel; over two rows it consumes one row on construction; two
non-empty iterators over the same result compare equal even with different
retrieval functions. -/
theorem c6_witness :
    (ResultIterator.eq (ResultIterator.make 1 2 { rows := 0 }).1 ResultIterator.empty = true) ∧
    ((ResultIterator.make 1 2 { rows := 2 }).1.result = some 1 ∧
      (ResultIterator.make 1 2 { rows := 2 }).2.rows = 1) ∧
    (ResultIterator.eq { result := some 3, retrieval_function := none }
      { result := some 3, retrieval_function := some 9 } = true) :=
  ⟨((c6_result_iterator 1 2 { rows := 0 } ResultIterator.empty ResultIterator.empty).1 rfl).2,
    by
      have h := (c6_result_iterator 1 2 { rows := 2 }
        ResultIterator.empty ResultIterator.empty).2.1 (by decide)
      simpa using h,
    (c6_result_iterator 1 2 { rows := 0 } { result := some 3, retrieval_function := none }
      { result := some 3, retrieval_function := some 9 }).2.2.2.2.mpr (Or.inr ⟨3, rfl, rfl⟩)⟩

/-- The exception class selected by `throw_error` is a function of the
primary result code (`result_code & 0xff`) alone. -/
lemma throw_error_kind (m : Option String) (code : Int) :
    (throw_error m code).kind =
      if code.emod 256 = SQLITE_BUSY then ErrorKind.busy
      else if code.emod 256 = SQLITE_CONSTRAINT then ErrorKind.constraint
      else if code.emod 256 = SQLITE_LOCKED then ErrorKind.locked
      else ErrorKind.generic := by
  rw [throw_error]
  by_cases h1 : code.emod 256 = SQLITE_BUSY
  · simp [h1]
  · by_cases h2 : code.emod 256 = SQLITE_CONSTRAINT
    · simp [h1, h2, SQLITE_BUSY, SQLITE_CONSTRAINT]
    · by_cases h3 : code.emod 256 = SQLITE_LOCKED
      · simp [h1, h2, h3, SQLITE_BUSY, SQLITE_CONSTRAINT, SQLITE_LOCKED]
      · simp only [SQLITE_BUSY, SQLITE_CONSTRAINT, SQLITE_LOCKED] at h1 h2 h3
        simp [h1, h2, h3, SQLITE_BUSY, SQLITE_CONSTRAINT, SQLITE_LOCKED]

/-- The `Error` object constructed by `throw_error` carries the full result
code. -/
lemma throw_error_code (m : Option String) (code : Int) :
    (throw_error m code).error_code = code := by
  rw [throw_error]
  by_cases h1 : code.emod 256 = SQLITE_BUSY
  · simp [h1]
  · by_cases h2 : code.emod 256 = SQLITE_CONSTRAINT
    · simp [h1, h2, SQLITE_BUSY, SQLITE_CONSTRAINT]
    · by_cases h3 : code.emod 256 = SQLITE_LOCKED
      · simp [h1, h2, h3, SQLITE_BUSY, SQLITE_CONSTRAINT, SQLITE_LOCKED]
      · simp only [SQLITE_BUSY, SQLITE_CONSTRAINT, SQLITE_LOCKED] at h1 h2 h3
        simp [h1, h2, h3, SQLITE_BUSY, SQLITE_CONSTRAINT, SQLITE_LOCKED]

/-- C7 (amended): a failing native call that is routed through `throw_error`
raises the most specific applicable error subtype, and the modelled fallible
operations — `Transaction::commit`, `Result::step`, `Backup::step`,
`Statement::reset`, and the open path's `check_open_ok` — check the engine
response immediately and raise rather than returning a sentinel; but two
native calls are exceptions to the policy: the `Backup` constructor stores
the result of its engine-init call without any check, and
`Statement::clear_bindings` discards the native result code, so neither ever
raises. -/
theorem c7_error_propagation :
    (∀ m code, code.emod 256 = SQLITE_BUSY → (throw_error m code).kind = ErrorKind.busy) ∧
    (∀ m code, code.emod 256 = SQLITE_CONSTRAINT →
      (throw_error m code).kind = ErrorKind.constraint) ∧
    (∀ m code, code.emod 256 = SQLITE_LOCKED → (throw_error m code).kind = ErrorKind.locked) ∧
    (∀ t db rc, rc ≠ SQLITE_OK → (Transaction.commit t db rc).raised.isSome = true) ∧
    (∀ r rc ecc m, rc ≠ SQLITE_ROW → rc ≠ SQLITE_DONE →
      raised (Result.step r rc ecc m).2 = true) ∧
    (∀ b n rc, rc ≠ SQLITE_OK → rc ≠ SQLITE_DONE →
      raised (Backup.step b n (some rc)).2 = true) ∧
    (∀ s st rrc crc cl, rrc ≠ SQLITE_OK →
      (Statement.reset s st rrc crc cl).raised.isSome = true) ∧
    (∀ h rc, rc ≠ SQLITE_OK → (check_open_ok (some h) rc).isSome = true) ∧
    (∀ r, (Backup.init r).2 = none) ∧
    (∀ st rc, (Statement.clear_bindings st rc).2 = none) := by
  refine ⟨?_, ?_, ?_, ?_, ?_, ?_, ?_, ?_, ?_, ?_⟩
  · intro m code h
    simp [throw_error_kind, h]
  · intro m code h
    simp [throw_error_kind, h, SQLITE_BUSY, SQLITE_CONSTRAINT]
  · intro m code h
    simp [throw_error_kind, h, SQLITE_BUSY, SQLITE_CONSTRAINT, SQLITE_LOCKED]
  · intro t db rc h
    simp [Transaction.commit, h]
  · intro r rc ecc m h1 h2
    rw [Result.step]
    simp [h1, h2, raised]
  · intro b n rc h1 h2
    simp [Backup.step, sqlite3_backup_step, raised, h1, h2]
  · intro s st rrc crc cl h
    simp [Statement.reset, sqlite3_reset, h]
  · intro h rc hrc
    simp [check_open_ok, hrc]
  · intro r
    rfl
  · intro st rc
    rfl

/-- Witness for C7 at concrete engine responses: a busy commit raises, while
a failed backup-init and a failing `sqlite3_clear_bindings` raise nothing. -/
theorem c7_witness :
    ((Transaction.commit { committed := false } { autocommit := false, errmsg := "e" }
        SQLITE_BUSY).raised.isSome = true) ∧
    ((Backup.init none).2 = none) ∧
    ((Statement.clear_bindings { position := 0, bindings := [(1, 2)], errmsg := "e" }
        SQLITE_BUSY).2 = none) :=
  ⟨c7_error_propagation.2.2.2.1 { committed := false } { autocommit := false, errmsg := "e" }
      SQLITE_BUSY (by decide),
    c7_error_propagation.2.2.2.2.2.2.2.2.1 none,
    c7_error_propagation.2.2.2.2.2.2.2.2.2
      { position := 0, bindings := [(1, 2)], errmsg := "e" } SQLITE_BUSY⟩

/-- Counterexample to C7 as stated: the claim says every native engine call
that can fail is checked immediately, including the `Backup` constructor's
engine-init call and `Statement::clear_bindings`; but a null
`sqlite3_backup_init` result is stored without raising, and a failing
`sqlite3_clear_bindings` result code is discarded without raising. -/
theorem c7_counterexample :
    ((Backup.init none).1.backup = none ∧ (Backup.init none).2 = none) ∧
    ((Statement.clear_bindings { position := 0, bindings := [(1, 2)], errmsg := "e" }
        SQLITE_BUSY).2 = none) := by
  refine ⟨⟨rfl, rfl⟩, rfl⟩

/-- C10: `throw_error` selects the error subtype from the primary result code
only (the low 8 bits, `result_code & 0xff = Int.emod result_code 256`), while
the error object's `code()` preserves the full code; every successful
`Connection::open` enables extended result codes on the handle it stores, so
any extended BUSY, LOCKED or CONSTRAINT code still maps to `BusyError`,
`LockedError` or `ConstraintError` respectively. -/
theorem c10_primary_code_dispatch :
    (∀ m code, (throw_error m code).error_code = code) ∧
    (∀ m c1 c2, c1.emod 256 = c2.emod 256 →
      (throw_error m c1).kind = (throw_error m c2).kind) ∧
    (∀ m code, code.emod 256 = SQLITE_BUSY → (throw_error m code).kind = ErrorKind.busy) ∧
    (∀ m code, code.emod 256 = SQLITE_LOCKED → (throw_error m code).kind = ErrorKind.locked) ∧
    (∀ m code, code.emod 256 = SQLITE_CONSTRAINT →
      (throw_error m code).kind = ErrorKind.constraint) ∧
    (∀ m code, code.emod 256 ≠ SQLITE_BUSY → code.emod 256 ≠ SQLITE_LOCKED →
      code.emod 256 ≠ SQLITE_CONSTRAINT → (throw_error m code).kind = ErrorKind.generic) ∧
    (∀ db, Connection.open SQLITE_OK db = .ok (db.map sqlite3_extended_result_codes_on)) ∧
    (∀ h, (sqlite3_extended_result_codes_on h).extended_result_codes = true) := by
  refine ⟨?_, ?_, ?_, ?_, ?_, ?_, ?_, ?_⟩
  · exact throw_error_code
  · intro m c1 c2 h
    rw [throw_error_kind, throw_error_kind, h]
  · intro m code h
    simp [throw_error_kind, h]
  · intro m code h
    simp [throw_error_kind, h, SQLITE_BUSY, SQLITE_CONSTRAINT, SQLITE_LOCKED]
  · intro m code h
    simp [throw_error_kind, h, SQLITE_BUSY, SQLITE_CONSTRAINT]
  · intro m code h1 h2 h3
    simp [throw_error_kind, h1, h2, h3]
  · intro db
    simp [Connection.open]
  · intro h
    rfl

/-- Witness for C10 at concrete extended result codes: `SQLITE_BUSY_RECOVERY`
(261), `SQLITE_LOCKED_SHAREDCACHE` (262) and `SQLITE_CONSTRAINT_UNIQUE`
(2067) map to the busy, locked and constraint subtypes while `code()` keeps
the extended value, and a successful open enables extended result codes. -/
theorem c10_witness :
    ((throw_error none 261).kind = ErrorKind.busy ∧ (throw_error none 261).error_code = 261) ∧
    ((throw_error none 262).kind = ErrorKind.locked) ∧
    ((throw_error none 2067).kind = ErrorKind.constraint) ∧
    (Connection.open SQLITE_OK (some { extended_result_codes := false, errmsg := "" }) =
      .ok (some { extended_result_codes := true, errmsg := "" })) :=
  ⟨⟨c10_primary_code_dispatch.2.2.1 none 261 (by decide),
      c10_primary_code_dispatch.1 none 261⟩,
    c10_primary_code_dispatch.2.2.2.1 none 262 (by decide),
    c10_primary_code_dispatch.2.2.2.2.1 none 2067 (by decide),
    by
      have h := c10_primary_code_dispatch.2.2.2.2.2.2.1
        (some { extended_result_codes := false, errmsg := "" })
      simpa [sqlite3_extended_result_codes_on] using h⟩

end Sqlitemm
